import Mathlib

/-!
Verification of the Threejs_animation repository: a shallow embedding of the
playback and trigger-selection logic of the two animated objects
(ModelDisplayer, the scene host, in modelLoader.js, and CursorObject, the
pointer proxy, in cursorObject.js), together with proofs of the spec's
testable properties.

Numeric values (positions, clip times, durations, frame deltas) are embedded
as rationals.  The three.js vector comparison
position.distanceTo(c) <= RADIUS is embedded as the equivalent comparison of
the squared Euclidean distance with the squared radius (both sides are
non-negative reals, so the two comparisons agree and no square root is
needed).
-/

/- Modelled from the spec: the file animationConstants.js is imported by both
cursorObject.js and home.js but is not part of the available sources.  It
defines the named animation-name string constants used throughout; per the
spec the selector returns "none" and trigger points carry the body-part names
HEAD, SHOES, etc.  The constants are modelled as pairwise-distinct strings. -/
namespace AnimationNameConstants

def LA : String := "LA"

def SCROLL : String := "SCROLL"

def CLICK : String := "CLICK"

def TOUCH : String := "TOUCH"

def HEAD : String := "HEAD"

def SHOES : String := "SHOES"

def INDEX_FINGER : String := "INDEX_FINGER"

def NONE : String := "none"

end AnimationNameConstants

/-- A three.js Vector3, embedded with rational coordinates. -/
structure Vec3 where
  x : ℚ
  y : ℚ
  z : ℚ
deriving DecidableEq

/-- Squared Euclidean distance between two points. -/
def dist2 (p q : Vec3) : ℚ :=
  (p.x - q.x) ^ 2 + (p.y - q.y) ^ 2 + (p.z - q.z) ^ 2

namespace CursorObject

/-- Source cursorObject.js line 3: const TRIGGER_REGION_RADIUS = 5. -/
def TRIGGER_REGION_RADIUS : ℚ := 5

/-- Source cursorObject.js lines 15-20: this._trigger_centres, a Map from
animation name to trigger centre, in insertion order
TOUCH, SHOES, HEAD, LA. -/
def trigger_centres : List (String × Vec3) :=
  [(AnimationNameConstants.TOUCH, ⟨70, 60, 65⟩),
   (AnimationNameConstants.SHOES, ⟨85, 55, 55⟩),
   (AnimationNameConstants.HEAD, ⟨75, 65, 60⟩),
   (AnimationNameConstants.LA, ⟨65, 60, 75⟩)]

/-- The test this._model.position.distanceTo(value) <= TRIGGER_REGION_RADIUS
from cursorObject.js line 99, embedded as the equivalent squared-distance
comparison. -/
def withinTrigger (pos centre : Vec3) : Bool :=
  dist2 pos centre ≤ TRIGGER_REGION_RADIUS ^ 2

/-- Source cursorObject.js lines 95-105 (getModelAnimation): starts from
AnimationNameConstants.NONE and iterates this._trigger_centres.forEach in
insertion order, overwriting the local accumulator with the key of every
centre within the radius.  The returned name is therefore the one of the
LAST matching entry. -/
def getModelAnimation (pos : Vec3) : String :=
  trigger_centres.foldl
    (fun animation kc => if withinTrigger pos kc.2 then kc.1 else animation)
    AnimationNameConstants.NONE

/-- The spec's reading of the selector ("returning the first match found,
iteration order = insertion order of trigger definitions"): the key of the
FIRST centre within the radius.  Written from the spec's words, for
comparison with getModelAnimation. -/
def getModelAnimationSpecFirst (pos : Vec3) : String :=
  match trigger_centres.find? (fun kc => withinTrigger pos kc.2) with
  | some kc => kc.1
  | none => AnimationNameConstants.NONE

/-- Last-match reading of the selector: the key of the last centre within the
radius, i.e. the first match over the reversed trigger list. -/
def getModelAnimationLastMatch (pos : Vec3) : String :=
  match trigger_centres.reverse.find? (fun kc => withinTrigger pos kc.2) with
  | some kc => kc.1
  | none => AnimationNameConstants.NONE

end CursorObject

/-- An animation clip as stored with a loaded model: a name and a duration. -/
structure Clip where
  name : String
  duration : ℚ
deriving DecidableEq

/-- THREE.AnimationClip.findByName over the model's animation list: returns
the first clip with the given name, or null (none) when no clip matches. -/
def findByName (clips : List Clip) (n : String) : Option Clip :=
  clips.find? (fun c => c.name == n)

/-- The playback fields of a three.js AnimationAction that the repository's
code reads or writes: elapsed time, the paused and enabled flags, the
time-scale sign, and clampWhenFinished, together with the clip's name and
duration. -/
structure Act where
  clip : String
  time : ℚ
  duration : ℚ
  paused : Bool
  enabled : Bool
  timeScale : ℚ
  clampWhenFinished : Bool
deriving DecidableEq

/-- Modelled from the spec: three.js AnimationAction.reset(), invoked by
cursorObject.js line 75; the library (libs/three.module.js) is not part of
the sources.  reset sets paused to false, enabled to true and time to 0. -/
def Act.reset (a : Act) : Act :=
  { a with time := 0, paused := false, enabled := true }

/-- Modelled from the spec: one mixer tick on a single LoopOnce action
(spec section 4, playback state machine: playing-forward to idle on natural
completion, clamped; playing-reverse to idle on reaching time zero).  A
paused or disabled action does not advance; otherwise time moves by
timeScale * delta and is clamped to [0, duration]; on reaching the boundary
the action pauses when clampWhenFinished is set and is disabled otherwise
(three.js LoopOnce finishing behaviour). -/
def Act.advance (a : Act) (δ : ℚ) : Act :=
  if !a.enabled || a.paused then a
  else if 0 ≤ a.timeScale then
    if a.duration ≤ a.time + a.timeScale * δ then
      (if a.clampWhenFinished then { a with time := a.duration, paused := true }
       else { a with time := a.duration, enabled := false })
    else { a with time := a.time + a.timeScale * δ }
  else
    if a.time + a.timeScale * δ ≤ 0 then
      (if a.clampWhenFinished then { a with time := 0, paused := true }
       else { a with time := 0, enabled := false })
    else { a with time := a.time + a.timeScale * δ }

/-- Result of running one repository operation: the state after the call,
whether the operation started (played) a clip, and the uncaught runtime
error, if any, that the call would raise. -/
structure OpResult (σ : Type) where
  state : σ
  started : Bool
  error : Option String
deriving DecidableEq

namespace ModelDisplayer

/-- Playback state of the scene host (modelLoader.js): the field
this._currentAction, null or the current action. -/
structure MDState where
  currentAction : Option Act
deriving DecidableEq

/-- Source modelLoader.js lines 134-144 (_isActionPlayable): true when the
current action is null, or is paused, or its time is exactly 0. -/
def isActionPlayable (a? : Option Act) : Bool :=
  match a? with
  | none => true
  | some a => a.paused || a.time == 0

/-- Source modelLoader.js lines 107-128 (playAnimation): when
_isActionPlayable() and the clip is at its starting point (action null or
time 0), looks the clip up by name and starts it as the new current action
(LoopOnce, clampWhenFinished, unpaused, enabled, timeScale 1, starting at
time 0 per the spec's "created on trigger, discarded when another clip
starts").  When the lookup returns null, this._mixer.clipAction(null)
returns null, this._currentAction is assigned null, and the following
setLoop call raises a TypeError. -/
def playAnimation (clips : List Clip) (s : MDState) (clipName : String) :
    OpResult MDState :=
  if isActionPlayable s.currentAction then
    let isClipAtStartingPoint : Bool :=
      match s.currentAction with
      | none => true
      | some a => a.time == 0
    if isClipAtStartingPoint then
      match findByName clips clipName with
      | none => ⟨⟨none⟩, false, some "TypeError"⟩
      | some c => ⟨⟨some ⟨c.name, 0, c.duration, false, true, 1, true⟩⟩, true, none⟩
    else ⟨s, false, none⟩
  else ⟨s, false, none⟩

/-- Source modelLoader.js lines 149-167 (revertToOriginalPosition): when
_isActionPlayable() and the clip is at an end point (action non-null with
time not 0), replays the current action in reverse: timeScale -1,
clampWhenFinished false, unpaused, LoopOnce. -/
def revertToOriginalPosition (s : MDState) : OpResult MDState :=
  if isActionPlayable s.currentAction then
    match s.currentAction with
    | none => ⟨s, false, none⟩
    | some a =>
      if a.time == 0 then ⟨s, false, none⟩
      else ⟨⟨some { a with timeScale := -1, clampWhenFinished := false,
                           paused := false }⟩, true, none⟩
  else ⟨s, false, none⟩

/-- Source modelLoader.js lines 357-361 (animate): one frame advances the
mixer by the scaled clock delta, which advances the current action. -/
def animate (s : MDState) (δ : ℚ) : MDState :=
  ⟨s.currentAction.map (fun a => a.advance δ)⟩

end ModelDisplayer

namespace CursorObject

/-- Playback and position state of the pointer proxy (cursorObject.js): the
model's position, this._currentAction (null or the current action) and
this._currentClipDuration (0 in the constructor). -/
structure CState where
  position : Vec3
  currentAction : Option Act
  currentClipDuration : ℚ
deriving DecidableEq

/-- Source cursorObject.js lines 68-79 (_isActionPlayable): true when the
current action is null; otherwise true exactly when the action's time equals
this._currentClipDuration, in which case the action is also reset (a state
change, so the result carries the state after the call). -/
def isActionPlayableRun (s : CState) : Bool × CState :=
  match s.currentAction with
  | none => (true, s)
  | some a =>
    if a.time == s.currentClipDuration then
      (true, { s with currentAction := some a.reset })
    else (false, s)

/-- Source cursorObject.js lines 81-93 (playAnimation): only for the names
LA, SCROLL, CLICK and TOUCH (short-circuit: _isActionPlayable is not even
called for other names), and only when _isActionPlayable(); TOUCH is
remapped to INDEX_FINGER; the clip is looked up by name, its duration is
recorded, and a new current action is started (LoopOnce, timeScale 1,
starting at time 0 per the spec's "created on trigger, discarded when
another clip starts"; clampWhenFinished keeps its default false).  When the
lookup returns null, reading clip.duration raises a TypeError before any
further assignment, so the state keeps only the reset made by
_isActionPlayable. -/
def playAnimation (clips : List Clip) (s : CState) (clipName : String) :
    OpResult CState :=
  if clipName == AnimationNameConstants.LA || clipName == AnimationNameConstants.SCROLL ||
      clipName == AnimationNameConstants.CLICK || clipName == AnimationNameConstants.TOUCH then
    if (isActionPlayableRun s).1 then
      match findByName clips (if clipName == AnimationNameConstants.TOUCH then
          AnimationNameConstants.INDEX_FINGER else clipName) with
      | none => ⟨(isActionPlayableRun s).2, false, some "TypeError"⟩
      | some c =>
        ⟨{ (isActionPlayableRun s).2 with
             currentAction := some ⟨c.name, 0, c.duration, false, true, 1, false⟩,
             currentClipDuration := c.duration }, true, none⟩
    else ⟨(isActionPlayableRun s).2, false, none⟩
  else ⟨s, false, none⟩

/-- Source cursorObject.js lines 54-66 (setCursorPosition): overwrites the
model's position with the ray/plane intersection scaled by 2.  The
unprojection itself is computed by the third-party raycaster from the mouse
coordinates and camera; it is modelled as an arbitrary resulting point, the
operation's effect on the embedded state being only the position write. -/
def setCursorPosition (s : CState) (p : Vec3) : CState :=
  { s with position := p }

/-- Source cursorObject.js lines 95-105 (getModelAnimation), as the method
runs on the object's state: it reads this._model.position and
this._trigger_centres, writes only the local accumulator variable, and
returns the selected name together with the (unchanged) object state. -/
def getModelAnimationRun (s : CState) : String × CState :=
  (getModelAnimation s.position, s)

/-- Source cursorObject.js lines 107-111 (animate): one frame advances the
mixer by the scaled clock delta, which advances the current action (the
point-light repositioning touches no playback field). -/
def animate (s : CState) (δ : ℚ) : CState :=
  { s with currentAction := s.currentAction.map (fun a => a.advance δ) }

end CursorObject

/-- Modelled from the spec: the outcome of the one-time asynchronous
third-party loader call (THREE.GLTFLoader.load, libs not in the sources):
either the success callback fires with the loaded asset, or the error
callback fires with an error. -/
inductive LoadOutcome where
  | success
  | failure (err : String)
deriving DecidableEq

/-- Observable result of a load operation: the console-error log entries it
emits and the settled promise (resolved, or rejected with an error). -/
structure LoadResult where
  consoleErrors : List String
  result : Except String Unit

/-- Source modelLoader.js lines 321-352 (_loadModelOntoScene): on success the
promise resolves; on loader failure the error callback logs the error to the
console and rejects the promise with that error. -/
def ModelDisplayer.loadModelOntoScene (o : LoadOutcome) : LoadResult :=
  match o with
  | .success => ⟨[], .ok ()⟩
  | .failure e => ⟨[e], .error e⟩

/-- Source modelLoader.js lines 174-197 (displayModelOnWebpage): chains on
_loadModelOntoScene; its catch handler logs the error again and rejects the
outer promise with the same error. -/
def ModelDisplayer.displayModelOnWebpage (o : LoadOutcome) : LoadResult :=
  match ModelDisplayer.loadModelOntoScene o with
  | ⟨log, .ok u⟩ => ⟨log, .ok u⟩
  | ⟨log, .error e⟩ => ⟨log ++ [e], .error e⟩

/-- Source cursorObject.js lines 26-52 (loadCursorObjectToScene): on success
the promise resolves; on loader failure the error callback logs the error to
the console and rejects the promise with that error. -/
def CursorObject.loadCursorObjectToScene (o : LoadOutcome) : LoadResult :=
  match o with
  | .success => ⟨[], .ok ()⟩
  | .failure e => ⟨[e], .error e⟩

/-- States of the scene host reachable from its post-load initial state
(this._currentAction null) under the operations the page can invoke:
playAnimation with any name, revertToOriginalPosition, and a frame advance
by any non-negative delta. -/
inductive ModelDisplayer.Reachable (clips : List Clip) : ModelDisplayer.MDState → Prop where
  | init : ModelDisplayer.Reachable clips ⟨none⟩
  | play (s : ModelDisplayer.MDState) (n : String) :
      ModelDisplayer.Reachable clips s →
      ModelDisplayer.Reachable clips (ModelDisplayer.playAnimation clips s n).state
  | revert (s : ModelDisplayer.MDState) :
      ModelDisplayer.Reachable clips s →
      ModelDisplayer.Reachable clips (ModelDisplayer.revertToOriginalPosition s).state
  | frame (s : ModelDisplayer.MDState) (δ : ℚ) : 0 ≤ δ →
      ModelDisplayer.Reachable clips s →
      ModelDisplayer.Reachable clips (ModelDisplayer.animate s δ)

/-- States of the pointer proxy reachable from its post-load initial state
(this._currentAction null, this._currentClipDuration 0, any position) under
the operations the page can invoke: playAnimation with any name, a cursor
move, and a frame advance by any non-negative delta. -/
inductive CursorObject.Reachable (clips : List Clip) : CursorObject.CState → Prop where
  | init (p : Vec3) : CursorObject.Reachable clips ⟨p, none, 0⟩
  | play (s : CursorObject.CState) (n : String) :
      CursorObject.Reachable clips s →
      CursorObject.Reachable clips (CursorObject.playAnimation clips s n).state
  | move (s : CursorObject.CState) (p : Vec3) :
      CursorObject.Reachable clips s →
      CursorObject.Reachable clips (CursorObject.setCursorPosition s p)
  | frame (s : CursorObject.CState) (δ : ℚ) : 0 ≤ δ →
      CursorObject.Reachable clips s →
      CursorObject.Reachable clips (CursorObject.animate s δ)

/-- Invariant on the scene host's current action: its time stays within
[0, duration], it is paused only when clamped at the clip's end, and it runs
forward clamped (timeScale 1) or reverse unclamped (timeScale -1). -/
def ModelDisplayer.ActInv (a : Act) : Prop :=
  0 ≤ a.time ∧ a.time ≤ a.duration ∧ (a.paused = true → a.time = a.duration) ∧
    (a.timeScale = 1 ∨ (a.timeScale = -1 ∧ a.clampWhenFinished = false))

/-- Invariant on the scene host's playback state. -/
def ModelDisplayer.Inv (s : ModelDisplayer.MDState) : Prop :=
  ∀ a, s.currentAction = some a → ModelDisplayer.ActInv a

/-- Invariant on the pointer proxy's current action: its time stays within
[0, duration], the recorded clip duration is the action's, and the action is
always unpaused, forward and unclamped. -/
def CursorObject.ActInv (s : CursorObject.CState) (a : Act) : Prop :=
  0 ≤ a.time ∧ a.time ≤ a.duration ∧ s.currentClipDuration = a.duration ∧
    a.paused = false ∧ a.timeScale = 1 ∧ a.clampWhenFinished = false

/-- Invariant on the pointer proxy's playback state. -/
def CursorObject.Inv (s : CursorObject.CState) : Prop :=
  ∀ a, s.currentAction = some a → CursorObject.ActInv s a

theorem findByName_mem {clips : List Clip} {n : String} {c : Clip}
    (h : findByName clips n = some c) : c ∈ clips :=
  List.mem_of_find?_eq_some h

theorem Act.advance_actInv (a : Act) (δ : ℚ) (hδ : 0 ≤ δ)
    (h : ModelDisplayer.ActInv a) : ModelDisplayer.ActInv (a.advance δ) := by
  obtain ⟨h0, hd, hp, hts⟩ := h
  have hdur : 0 ≤ a.duration := le_trans h0 hd
  unfold Act.advance
  split_ifs with h1 h2 h3 h4 h5 h6
  · exact ⟨h0, hd, hp, hts⟩
  · exact ⟨hdur, le_refl _, fun _ => rfl, hts⟩
  · simp only [Bool.or_eq_true, Bool.not_eq_true', not_or] at h1
    refine ⟨hdur, le_refl _, ?_, hts⟩
    intro hpa
    exact absurd hpa h1.2
  · simp only [Bool.or_eq_true, Bool.not_eq_true', not_or] at h1
    rcases hts with hts | hts
    · refine ⟨?_, ?_, ?_, Or.inl hts⟩
      · show 0 ≤ a.time + a.timeScale * δ
        rw [hts]
        linarith
      · exact le_of_lt (lt_of_not_le h3)
      · intro hpa
        exact absurd hpa h1.2
    · exfalso
      rw [hts.1] at h2
      norm_num at h2
  · rcases hts with hts | hts
    · exfalso
      rw [hts] at h2
      norm_num at h2
    · exfalso
      rw [hts.2] at h6
      exact absurd h6 (by simp)
  · simp only [Bool.or_eq_true, Bool.not_eq_true', not_or] at h1
    refine ⟨le_refl _, hdur, ?_, hts⟩
    intro hpa
    exact absurd hpa h1.2
  · simp only [Bool.or_eq_true, Bool.not_eq_true', not_or] at h1
    rcases hts with hts | hts
    · exfalso
      rw [hts] at h2
      norm_num at h2
    · refine ⟨le_of_lt (lt_of_not_le h5), ?_, ?_, Or.inr hts⟩
      · show a.time + a.timeScale * δ ≤ a.duration
        rw [hts.1]
        linarith
      · intro hpa
        exact absurd hpa h1.2

theorem ModelDisplayer.freshAct_actInv (c : Clip) (hc : 0 ≤ c.duration) :
    ModelDisplayer.ActInv ⟨c.name, 0, c.duration, false, true, 1, true⟩ :=
  ⟨le_refl 0, hc, by simp, Or.inl rfl⟩

theorem ModelDisplayer.playAnimation_inv (clips : List Clip)
    (hc : ∀ c ∈ clips, 0 ≤ c.duration) (s : ModelDisplayer.MDState) (n : String)
    (h : ModelDisplayer.Inv s) :
    ModelDisplayer.Inv (ModelDisplayer.playAnimation clips s n).state := by
  unfold ModelDisplayer.playAnimation
  split_ifs with h1
  · cases hs : s.currentAction with
    | none =>
      simp only [hs]
      cases hf : findByName clips n with
      | none =>
        simp only [hf]
        intro a ha
        simp at ha
      | some c =>
        simp only [hf]
        intro a ha
        have ha2 : some (⟨c.name, 0, c.duration, false, true, 1, true⟩ : Act) = some a := ha
        cases ha2
        exact ModelDisplayer.freshAct_actInv c (hc c (findByName_mem hf))
    | some a0 =>
      simp only [hs]
      split_ifs with h2
      · cases hf : findByName clips n with
        | none =>
          simp only [hf]
          intro a ha
          simp at ha
        | some c =>
          simp only [hf]
          intro a ha
          have ha2 : some (⟨c.name, 0, c.duration, false, true, 1, true⟩ : Act) = some a := ha
          cases ha2
          exact ModelDisplayer.freshAct_actInv c (hc c (findByName_mem hf))
      · exact h
  · exact h

theorem ModelDisplayer.revert_inv (s : ModelDisplayer.MDState)
    (h : ModelDisplayer.Inv s) :
    ModelDisplayer.Inv (ModelDisplayer.revertToOriginalPosition s).state := by
  unfold ModelDisplayer.revertToOriginalPosition
  split_ifs with h1
  · cases hs : s.currentAction with
    | none =>
      simp only [hs]
      exact h
    | some a =>
      simp only [hs]
      split_ifs with h2
      · exact h
      · intro b hb
        have hb2 : some { a with timeScale := -1, clampWhenFinished := false,
                                 paused := false } = some b := hb
        cases hb2
        obtain ⟨h0, hd, hp, hts⟩ := h a hs
        exact ⟨h0, hd, by simp, Or.inr ⟨rfl, rfl⟩⟩
  · exact h

theorem ModelDisplayer.animate_inv (s : ModelDisplayer.MDState) (δ : ℚ)
    (hδ : 0 ≤ δ) (h : ModelDisplayer.Inv s) :
    ModelDisplayer.Inv (ModelDisplayer.animate s δ) := by
  unfold ModelDisplayer.animate
  cases hs : s.currentAction with
  | none =>
    intro a ha
    simp [hs] at ha
  | some a =>
    intro b hb
    simp only [hs, Option.map_some'] at hb
    have hb2 : some (a.advance δ) = some b := hb
    cases hb2
    exact Act.advance_actInv a δ hδ (h a hs)

/-- Every reachable playback state of the scene host satisfies the playback
invariant (given that the loaded clips have non-negative durations). -/
theorem ModelDisplayer.reachable_inv (clips : List Clip)
    (hc : ∀ c ∈ clips, 0 ≤ c.duration) (s : ModelDisplayer.MDState)
    (h : ModelDisplayer.Reachable clips s) : ModelDisplayer.Inv s := by
  induction h with
  | init =>
    intro a ha
    simp at ha
  | play s n _ ih => exact ModelDisplayer.playAnimation_inv clips hc s n ih
  | revert s _ ih => exact ModelDisplayer.revert_inv s ih
  | frame s δ hδ _ ih => exact ModelDisplayer.animate_inv s δ hδ ih

theorem CursorObject.actInv_advance (s : CursorObject.CState) (a : Act) (δ : ℚ)
    (hδ : 0 ≤ δ) (h : CursorObject.ActInv s a) :
    CursorObject.ActInv s (a.advance δ) := by
  obtain ⟨h0, hd, hcd, hp, hts, hcl⟩ := h
  unfold Act.advance
  split_ifs with h1 h2 h3 h4 h5 h6
  · exact ⟨h0, hd, hcd, hp, hts, hcl⟩
  · rw [hcl] at h4
    exact absurd h4 (by simp)
  · exact ⟨le_trans h0 hd, le_refl _, hcd, hp, hts, hcl⟩
  · refine ⟨?_, le_of_lt (lt_of_not_le h3), hcd, hp, hts, hcl⟩
    show 0 ≤ a.time + a.timeScale * δ
    rw [hts]
    linarith
  · rw [hts] at h2
    norm_num at h2
  · rw [hts] at h2
    norm_num at h2
  · rw [hts] at h2
    norm_num at h2

theorem CursorObject.isActionPlayableRun_inv (s : CursorObject.CState)
    (h : CursorObject.Inv s) : CursorObject.Inv (CursorObject.isActionPlayableRun s).2 := by
  unfold CursorObject.isActionPlayableRun
  cases hs : s.currentAction with
  | none =>
    simp only [hs]
    exact h
  | some a =>
    simp only [hs]
    split_ifs with ht
    · intro b hb
      have hb2 : some a.reset = some b := hb
      cases hb2
      obtain ⟨h0, hd, hcd, hp, hts, hcl⟩ := h a hs
      exact ⟨le_refl 0, le_trans h0 hd, hcd, rfl, hts, hcl⟩
    · exact h

theorem CursorObject.playAnimation_preserves_inv (clips : List Clip)
    (hc : ∀ c ∈ clips, 0 ≤ c.duration) (s : CursorObject.CState) (n : String)
    (h : CursorObject.Inv s) :
    CursorObject.Inv (CursorObject.playAnimation clips s n).state := by
  unfold CursorObject.playAnimation
  split_ifs with h1 h2 h3
  · cases hf : findByName clips AnimationNameConstants.INDEX_FINGER with
    | none =>
      simp only [hf]
      exact CursorObject.isActionPlayableRun_inv s h
    | some c =>
      simp only [hf]
      intro b hb
      have hb2 : some (⟨c.name, 0, c.duration, false, true, 1, false⟩ : Act) = some b := hb
      cases hb2
      exact ⟨le_refl 0, hc c (findByName_mem hf), rfl, rfl, rfl, rfl⟩
  · cases hf : findByName clips n with
    | none =>
      simp only [hf]
      exact CursorObject.isActionPlayableRun_inv s h
    | some c =>
      simp only [hf]
      intro b hb
      have hb2 : some (⟨c.name, 0, c.duration, false, true, 1, false⟩ : Act) = some b := hb
      cases hb2
      exact ⟨le_refl 0, hc c (findByName_mem hf), rfl, rfl, rfl, rfl⟩
  · exact CursorObject.isActionPlayableRun_inv s h
  · exact h

theorem CursorObject.animate_preserves_inv (s : CursorObject.CState) (δ : ℚ)
    (hδ : 0 ≤ δ) (h : CursorObject.Inv s) :
    CursorObject.Inv (CursorObject.animate s δ) := by
  unfold CursorObject.animate
  cases hs : s.currentAction with
  | none =>
    intro b hb
    simp [hs] at hb
  | some a =>
    intro b hb
    simp only [hs, Option.map_some'] at hb
    have hb2 : some (a.advance δ) = some b := hb
    cases hb2
    exact CursorObject.actInv_advance s a δ hδ (h a hs)

/-- Every reachable playback state of the pointer proxy satisfies the
playback invariant (given that the loaded clips have non-negative
durations). -/
theorem CursorObject.reachable_invariant (clips : List Clip)
    (hc : ∀ c ∈ clips, 0 ≤ c.duration) (s : CursorObject.CState)
    (h : CursorObject.Reachable clips s) : CursorObject.Inv s := by
  induction h with
  | init p =>
    intro a ha
    simp at ha
  | play s n _ ih => exact CursorObject.playAnimation_preserves_inv clips hc s n ih
  | move s p _ ih =>
    intro a ha
    exact ih a ha
  | frame s δ hδ _ ih => exact CursorObject.animate_preserves_inv s δ hδ ih

/-- C1, corrected: for every pointer-proxy position the animation selector
checks the squared Euclidean distance from the position to each named
trigger point against the fixed radius threshold, iterating in insertion
order of the trigger definitions, and returns the LAST (not first) trigger
whose distance is within the threshold, or "none" when no trigger is within
the threshold. -/
theorem C1_selector_returns_last_match (pos : Vec3) :
    CursorObject.getModelAnimation pos = CursorObject.getModelAnimationLastMatch pos := by
  unfold CursorObject.getModelAnimation CursorObject.getModelAnimationLastMatch
    CursorObject.trigger_centres
  cases h1 : CursorObject.withinTrigger pos ⟨70, 60, 65⟩ <;>
    cases h2 : CursorObject.withinTrigger pos ⟨85, 55, 55⟩ <;>
      cases h3 : CursorObject.withinTrigger pos ⟨75, 65, 60⟩ <;>
        cases h4 : CursorObject.withinTrigger pos ⟨65, 60, 75⟩ <;>
          simp [h1, h2, h3, h4, List.foldl, List.find?]

/-- C1 counterexample: at position (72,63,62) the proxy is within radius 5
of both the TOUCH centre (70,60,65) (squared distance 22) and the HEAD
centre (75,65,60) (squared distance 17).  The first match in insertion
order is TOUCH, but getModelAnimation returns HEAD, the last match: the
claimed first-match rule disagrees with the code. -/
theorem C1_counterexample :
    CursorObject.getModelAnimation ⟨72, 63, 62⟩ = AnimationNameConstants.HEAD ∧
    CursorObject.getModelAnimationSpecFirst ⟨72, 63, 62⟩ = AnimationNameConstants.TOUCH ∧
    AnimationNameConstants.HEAD ≠ AnimationNameConstants.TOUCH := by
  refine ⟨?_, ?_, by decide⟩
  · norm_num [CursorObject.getModelAnimation, CursorObject.trigger_centres,
      CursorObject.withinTrigger, dist2, CursorObject.TRIGGER_REGION_RADIUS,
      AnimationNameConstants.TOUCH, AnimationNameConstants.SHOES,
      AnimationNameConstants.HEAD, AnimationNameConstants.LA,
      AnimationNameConstants.NONE, List.foldl]
  · norm_num [CursorObject.getModelAnimationSpecFirst, CursorObject.trigger_centres,
      CursorObject.withinTrigger, dist2, CursorObject.TRIGGER_REGION_RADIUS, List.find?]

/-- C6: for every pointer-proxy position strictly farther than the trigger
radius from every trigger point (equivalently, with squared distance
strictly above the squared radius), getModelAnimation returns the "none"
animation name. -/
theorem C6_none_when_far (pos : Vec3)
    (h : ∀ kc ∈ CursorObject.trigger_centres,
      CursorObject.TRIGGER_REGION_RADIUS ^ 2 < dist2 pos kc.2) :
    CursorObject.getModelAnimation pos = AnimationNameConstants.NONE := by
  unfold CursorObject.getModelAnimation
  have hfold : ∀ kc ∈ CursorObject.trigger_centres,
      CursorObject.withinTrigger pos kc.2 = false := by
    intro kc hkc
    have := h kc hkc
    simp [CursorObject.withinTrigger]
    linarith
  unfold CursorObject.trigger_centres at hfold ⊢
  rw [List.foldl_cons, List.foldl_cons, List.foldl_cons, List.foldl_cons, List.foldl_nil]
  rw [hfold _ (by simp), hfold _ (by simp), hfold _ (by simp), hfold _ (by simp)]
  rfl

/-- C6 witness: the position (100,100,100) is strictly outside every trigger
sphere, and the selector returns "none" there. -/
theorem C6_witness :
    (∀ kc ∈ CursorObject.trigger_centres,
      CursorObject.TRIGGER_REGION_RADIUS ^ 2 < dist2 ⟨100, 100, 100⟩ kc.2) ∧
    CursorObject.getModelAnimation ⟨100, 100, 100⟩ = AnimationNameConstants.NONE := by
  have hfar : ∀ kc ∈ CursorObject.trigger_centres,
      CursorObject.TRIGGER_REGION_RADIUS ^ 2 < dist2 ⟨100, 100, 100⟩ kc.2 := by
    intro kc hkc
    fin_cases hkc <;>
      norm_num [dist2, CursorObject.TRIGGER_REGION_RADIUS]
  exact ⟨hfar, C6_none_when_far ⟨100, 100, 100⟩ hfar⟩

/-- C7: for a pointer-proxy position exactly equal to any trigger point's
coordinate, getModelAnimation returns that trigger point's associated
animation name; in particular the HEAD centre (75,65,60) yields "HEAD" and
(100,100,100) yields "none". -/
theorem C7_exact_centre_hits (kc : String × Vec3)
    (hkc : kc ∈ CursorObject.trigger_centres) :
    CursorObject.getModelAnimation kc.2 = kc.1 ∧
    CursorObject.getModelAnimation ⟨75, 65, 60⟩ = AnimationNameConstants.HEAD ∧
    CursorObject.getModelAnimation ⟨100, 100, 100⟩ = AnimationNameConstants.NONE := by
  refine ⟨?_, ?_, ?_⟩
  · fin_cases hkc <;>
      norm_num [CursorObject.getModelAnimation, CursorObject.trigger_centres,
        CursorObject.withinTrigger, dist2, CursorObject.TRIGGER_REGION_RADIUS,
        AnimationNameConstants.TOUCH, AnimationNameConstants.SHOES,
        AnimationNameConstants.HEAD, AnimationNameConstants.LA,
        AnimationNameConstants.NONE, List.foldl]
  · norm_num [CursorObject.getModelAnimation, CursorObject.trigger_centres,
      CursorObject.withinTrigger, dist2, CursorObject.TRIGGER_REGION_RADIUS,
      AnimationNameConstants.TOUCH, AnimationNameConstants.SHOES,
      AnimationNameConstants.HEAD, AnimationNameConstants.LA,
      AnimationNameConstants.NONE, List.foldl]
  · norm_num [CursorObject.getModelAnimation, CursorObject.trigger_centres,
      CursorObject.withinTrigger, dist2, CursorObject.TRIGGER_REGION_RADIUS,
      AnimationNameConstants.TOUCH, AnimationNameConstants.SHOES,
      AnimationNameConstants.HEAD, AnimationNameConstants.LA,
      AnimationNameConstants.NONE, List.foldl]

/-- C7 witness: the theorem applied at the HEAD trigger entry. -/
theorem C7_witness :
    CursorObject.getModelAnimation ⟨75, 65, 60⟩ = AnimationNameConstants.HEAD :=
  (C7_exact_centre_hits (AnimationNameConstants.HEAD, ⟨75, 65, 60⟩)
    (by simp [CursorObject.trigger_centres])).1

/-- C10: getModelAnimation is a pure query: it leaves the pointer-proxy
state (position, current action, recorded clip duration) unchanged, and a
second call in the resulting state returns the same animation name. -/
theorem C10_selector_pure (s : CursorObject.CState) :
    (CursorObject.getModelAnimationRun s).2 = s ∧
    (CursorObject.getModelAnimationRun s).2.position = s.position ∧
    (CursorObject.getModelAnimationRun s).2.currentAction = s.currentAction ∧
    (CursorObject.getModelAnimationRun
      ((CursorObject.getModelAnimationRun s).2)).1 =
      (CursorObject.getModelAnimationRun s).1 :=
  ⟨rfl, rfl, rfl, rfl⟩

/-- C2 counterexample: on the playback state holding an unpaused action at
time 0 with clip duration 1, the scene host's admission predicate
(_isActionPlayable: null, paused, or time 0) answers true while the pointer
proxy's (_isActionPlayable: null, or time equal to the recorded clip
duration) answers false, so the two are not the same boundary condition. -/
theorem C2_counterexample :
    ModelDisplayer.isActionPlayable
      (some ⟨"CLICK", 0, 1, false, true, 1, true⟩) = true ∧
    (CursorObject.isActionPlayableRun
      ⟨⟨0, 0, 0⟩, some ⟨"CLICK", 0, 1, false, true, 1, true⟩, 1⟩).1 = false := by
  constructor
  · norm_num [ModelDisplayer.isActionPlayable]
  · norm_num [CursorObject.isActionPlayableRun]

/-- C2, corrected: the two admission predicates agree (both admit) when the
current action is null, but for a non-null action they are different
boundary conditions: the pointer proxy admits exactly when the action's
time equals the recorded clip duration, while the scene host admits exactly
when the action is paused or its time is 0. -/
theorem C2_admission_predicates (s : CursorObject.CState) :
    (s.currentAction = none →
      (CursorObject.isActionPlayableRun s).1 = true ∧
      ModelDisplayer.isActionPlayable s.currentAction = true) ∧
    (∀ a, s.currentAction = some a →
      (CursorObject.isActionPlayableRun s).1 = (a.time == s.currentClipDuration) ∧
      ModelDisplayer.isActionPlayable s.currentAction = (a.paused || a.time == 0)) := by
  constructor
  · intro hn
    unfold CursorObject.isActionPlayableRun ModelDisplayer.isActionPlayable
    rw [hn]
    exact ⟨rfl, rfl⟩
  · intro a ha
    unfold CursorObject.isActionPlayableRun ModelDisplayer.isActionPlayable
    rw [ha]
    constructor
    · by_cases ht : a.time == s.currentClipDuration
      · simp [ht]
      · simp [ht]
    · rfl

/-- C2 witness: the corrected description applied to the empty initial
state, where both predicates admit. -/
theorem C2_witness :
    (CursorObject.isActionPlayableRun ⟨⟨0, 0, 0⟩, none, 0⟩).1 = true ∧
    ModelDisplayer.isActionPlayable
      (CursorObject.CState.currentAction ⟨⟨0, 0, 0⟩, none, 0⟩) = true :=
  (C2_admission_predicates ⟨⟨0, 0, 0⟩, none, 0⟩).1 rfl

/-- C4: for every playback state whose current action is unpaused with time
strictly between 0 and the clip duration (the duration recorded for it),
playAnimation with any clip name is a no-op on both components: the state
is returned unchanged, nothing is started and no error is raised. -/
theorem C4_midplayback_noop :
    (∀ (clips : List Clip) (s : ModelDisplayer.MDState) (a : Act) (n : String),
      s.currentAction = some a → a.paused = false → 0 < a.time →
      a.time < a.duration →
      ModelDisplayer.playAnimation clips s n = ⟨s, false, none⟩) ∧
    (∀ (clips : List Clip) (s : CursorObject.CState) (a : Act) (n : String),
      s.currentAction = some a → a.paused = false → 0 < a.time →
      a.time < s.currentClipDuration →
      CursorObject.playAnimation clips s n = ⟨s, false, none⟩) := by
  constructor
  · intro clips s a n ha hp ht0 htd
    unfold ModelDisplayer.playAnimation
    have hg : ModelDisplayer.isActionPlayable s.currentAction = false := by
      unfold ModelDisplayer.isActionPlayable
      rw [ha]
      show (a.paused || a.time == 0) = false
      rw [hp]
      simp
      exact ne_of_gt ht0
    rw [hg]
    simp
  · intro clips s a n ha hp ht0 htd
    unfold CursorObject.playAnimation
    have hr : CursorObject.isActionPlayableRun s = (false, s) := by
      unfold CursorObject.isActionPlayableRun
      rw [ha]
      have hb : (a.time == s.currentClipDuration) = false := by
        simp
        exact ne_of_lt htd
      show (if (a.time == s.currentClipDuration) = true then
          (true, { s with currentAction := some a.reset }) else (false, s)) = (false, s)
      rw [hb]
      simp
    rw [hr]
    split_ifs <;> first | rfl | exact (by assumption : False).elim

/-- C4 witness: a mid-playback state (time one half, duration 1, unpaused);
a SCROLL request leaves both components' states unchanged. -/
theorem C4_witness :
    ModelDisplayer.playAnimation []
      ⟨some ⟨"CLICK", 1/2, 1, false, true, 1, true⟩⟩ "SCROLL" =
      ⟨⟨some ⟨"CLICK", 1/2, 1, false, true, 1, true⟩⟩, false, none⟩ ∧
    CursorObject.playAnimation []
      ⟨⟨0, 0, 0⟩, some ⟨"CLICK", 1/2, 1, false, true, 1, false⟩, 1⟩ "SCROLL" =
      ⟨⟨⟨0, 0, 0⟩, some ⟨"CLICK", 1/2, 1, false, true, 1, false⟩, 1⟩, false, none⟩ :=
  ⟨C4_midplayback_noop.1 [] ⟨some ⟨"CLICK", 1/2, 1, false, true, 1, true⟩⟩
      ⟨"CLICK", 1/2, 1, false, true, 1, true⟩ "SCROLL" rfl rfl (by norm_num) (by norm_num),
   C4_midplayback_noop.2 [] ⟨⟨0, 0, 0⟩, some ⟨"CLICK", 1/2, 1, false, true, 1, false⟩, 1⟩
      ⟨"CLICK", 1/2, 1, false, true, 1, false⟩ "SCROLL" rfl rfl (by norm_num) (by norm_num)⟩

/-- C5: calling revertToOriginalPosition when no clip has completed (the
current action is null, or its time is 0) is a no-op: the state is returned
unchanged, nothing is started and no error is raised. -/
theorem C5_revert_noop (s : ModelDisplayer.MDState)
    (h : s.currentAction = none ∨ ∃ a, s.currentAction = some a ∧ a.time = 0) :
    ModelDisplayer.revertToOriginalPosition s = ⟨s, false, none⟩ := by
  unfold ModelDisplayer.revertToOriginalPosition
  rcases h with hn | ⟨a, ha, ht⟩
  · rw [hn]
    simp [ModelDisplayer.isActionPlayable]
  · rw [ha]
    simp [ModelDisplayer.isActionPlayable, ht]

/-- C5 witness: reverting in the initial state (no action) changes
nothing. -/
theorem C5_witness :
    ModelDisplayer.revertToOriginalPosition ⟨none⟩ = ⟨⟨none⟩, false, none⟩ :=
  C5_revert_noop ⟨none⟩ (Or.inl rfl)

/-- C8 counterexample: playAnimation called at a boundary with a clip name
absent from the loaded animations raises a TypeError on both components
(THREE.AnimationClip.findByName returns null, and the code dereferences the
null clip), so asset-load failure is not the only operation that can raise
an error. -/
theorem C8_counterexample :
    (ModelDisplayer.playAnimation [] ⟨none⟩ "CLICK").error = some "TypeError" ∧
    (CursorObject.playAnimation [] ⟨⟨0, 0, 0⟩, none, 0⟩
      AnimationNameConstants.CLICK).error = some "TypeError" :=
  ⟨rfl, rfl⟩

/-- C8, corrected: a loader failure is logged to the console and the
asynchronous load result is rejected with that same error, on both
components (displayModelOnWebpage logs it twice through its catch handler);
revertToOriginalPosition never raises, and playAnimation raises no error
whenever the clip name it looks up is present in the loaded animations
(only the absent-clip lookup of the counterexample raises). -/
theorem C8_load_error_propagation :
    (∀ e, ModelDisplayer.loadModelOntoScene (.failure e) = ⟨[e], .error e⟩) ∧
    (∀ e, ModelDisplayer.displayModelOnWebpage (.failure e) = ⟨[e, e], .error e⟩) ∧
    (∀ e, CursorObject.loadCursorObjectToScene (.failure e) = ⟨[e], .error e⟩) ∧
    (∀ (clips : List Clip) (s : ModelDisplayer.MDState) (n : String) (c : Clip),
      findByName clips n = some c →
      (ModelDisplayer.playAnimation clips s n).error = none) ∧
    (∀ (s : ModelDisplayer.MDState),
      (ModelDisplayer.revertToOriginalPosition s).error = none) ∧
    (∀ (clips : List Clip) (s : CursorObject.CState) (n : String) (c : Clip),
      findByName clips (if (n == AnimationNameConstants.TOUCH) = true then
        AnimationNameConstants.INDEX_FINGER else n) = some c →
      (CursorObject.playAnimation clips s n).error = none) := by
  refine ⟨fun e => rfl, fun e => rfl, fun e => rfl, ?_, ?_, ?_⟩
  · intro clips s n c h
    unfold ModelDisplayer.playAnimation
    rw [h]
    split_ifs with h1
    · cases hs : s.currentAction with
      | none =>
        simp only [hs]
        simp
      | some a =>
        simp only [hs]
        split_ifs with h2 <;> rfl
    · rfl
  · intro s
    unfold ModelDisplayer.revertToOriginalPosition
    split_ifs with h1
    · cases hs : s.currentAction with
      | none => simp only [hs]
      | some a =>
        simp only [hs]
        split_ifs with h2 <;> rfl
    · rfl
  · intro clips s n c h
    unfold CursorObject.playAnimation
    split_ifs with h1 h2 h3
    · rw [h3] at h
      simp at h
      rw [h]
    · simp only [Bool.not_eq_true] at h3
      rw [h3] at h
      simp at h
      rw [h]
    · rfl
    · rfl

theorem findByName_name {clips : List Clip} {n : String} {c : Clip}
    (h : findByName clips n = some c) : c.name = n := by
  unfold findByName at h
  have hp := @List.find?_some Clip (fun c => c.name == n) c clips h
  exact eq_of_beq hp

/-- C8 witness: a failing load is logged twice by displayModelOnWebpage and
rejected with the same error, and playAnimation raises no error when the
looked-up clip (CLICK for the scene host; INDEX_FINGER for a TOUCH request
on the pointer proxy) is present. -/
theorem C8_witness :
    ModelDisplayer.displayModelOnWebpage (.failure "boom") =
      ⟨["boom", "boom"], .error "boom"⟩ ∧
    (ModelDisplayer.playAnimation [⟨"CLICK", 1⟩] ⟨none⟩ "CLICK").error = none ∧
    (CursorObject.playAnimation [⟨"INDEX_FINGER", 2⟩] ⟨⟨0, 0, 0⟩, none, 0⟩
      AnimationNameConstants.TOUCH).error = none :=
  ⟨C8_load_error_propagation.2.1 "boom",
   C8_load_error_propagation.2.2.2.1 [⟨"CLICK", 1⟩] ⟨none⟩ "CLICK" ⟨"CLICK", 1⟩ rfl,
   C8_load_error_propagation.2.2.2.2.2 [⟨"INDEX_FINGER", 2⟩] ⟨⟨0, 0, 0⟩, none, 0⟩
     AnimationNameConstants.TOUCH ⟨"INDEX_FINGER", 2⟩ rfl⟩

/-- C9: the pointer proxy's playAnimation starts clips only for the names
LA, SCROLL, CLICK and TOUCH: any other name (HEAD and SHOES, which the
mouse-move handler can pass, included) is a silent no-op even at a playback
boundary (state unchanged, nothing started, no error raised), and a started
TOUCH request plays the clip named INDEX_FINGER, not one named TOUCH. -/
theorem C9_name_gating :
    (∀ (clips : List Clip) (s : CursorObject.CState) (n : String),
      (n == AnimationNameConstants.LA) = false →
      (n == AnimationNameConstants.SCROLL) = false →
      (n == AnimationNameConstants.CLICK) = false →
      (n == AnimationNameConstants.TOUCH) = false →
      CursorObject.playAnimation clips s n = ⟨s, false, none⟩) ∧
    (∀ (clips : List Clip) (s : CursorObject.CState) (n : String),
      (CursorObject.playAnimation clips s n).started = true →
      n = AnimationNameConstants.LA ∨ n = AnimationNameConstants.SCROLL ∨
        n = AnimationNameConstants.CLICK ∨ n = AnimationNameConstants.TOUCH) ∧
    (∀ (clips : List Clip) (s : CursorObject.CState) (b : Act),
      (CursorObject.playAnimation clips s AnimationNameConstants.TOUCH).started = true →
      (CursorObject.playAnimation clips s
        AnimationNameConstants.TOUCH).state.currentAction = some b →
      b.clip = AnimationNameConstants.INDEX_FINGER) := by
  refine ⟨?_, ?_, ?_⟩
  · intro clips s n hla hsc hcl hto
    unfold CursorObject.playAnimation
    rw [hla, hsc, hcl, hto]
    simp
  · intro clips s n h
    unfold CursorObject.playAnimation at h
    by_cases h1 : (n == AnimationNameConstants.LA || n == AnimationNameConstants.SCROLL ||
        n == AnimationNameConstants.CLICK || n == AnimationNameConstants.TOUCH) = true
    · simp only [Bool.or_eq_true, beq_iff_eq] at h1
      rcases h1 with ((h1 | h1) | h1) | h1
      · exact Or.inl h1
      · exact Or.inr (Or.inl h1)
      · exact Or.inr (Or.inr (Or.inl h1))
      · exact Or.inr (Or.inr (Or.inr h1))
    · rw [if_neg h1] at h
      exact absurd h (by simp)
  · intro clips s b hstart hact
    unfold CursorObject.playAnimation at hstart hact
    have hg : (AnimationNameConstants.TOUCH == AnimationNameConstants.LA ||
        AnimationNameConstants.TOUCH == AnimationNameConstants.SCROLL ||
        AnimationNameConstants.TOUCH == AnimationNameConstants.CLICK ||
        AnimationNameConstants.TOUCH == AnimationNameConstants.TOUCH) = true := rfl
    rw [if_pos hg] at hstart hact
    have hrem : (if (AnimationNameConstants.TOUCH == AnimationNameConstants.TOUCH) = true
        then AnimationNameConstants.INDEX_FINGER else AnimationNameConstants.TOUCH) =
        AnimationNameConstants.INDEX_FINGER := rfl
    rw [hrem] at hstart hact
    by_cases h2 : (CursorObject.isActionPlayableRun s).1 = true
    · rw [if_pos h2] at hstart hact
      cases hf : findByName clips AnimationNameConstants.INDEX_FINGER with
      | none =>
        rw [hf] at hstart
        exact absurd hstart (by simp)
      | some c =>
        rw [hf] at hact
        have hb : some (⟨c.name, 0, c.duration, false, true, 1, false⟩ : Act) = some b := hact
        cases hb
        exact findByName_name hf
    · rw [if_neg h2] at hstart
      exact absurd hstart (by simp)

/-- C9 witness: HEAD and SHOES requests on the empty initial state are
no-ops, and a started TOUCH request's new action carries the clip name
INDEX_FINGER. -/
theorem C9_witness :
    CursorObject.playAnimation [] ⟨⟨0, 0, 0⟩, none, 0⟩ AnimationNameConstants.HEAD =
      ⟨⟨⟨0, 0, 0⟩, none, 0⟩, false, none⟩ ∧
    CursorObject.playAnimation [] ⟨⟨0, 0, 0⟩, none, 0⟩ AnimationNameConstants.SHOES =
      ⟨⟨⟨0, 0, 0⟩, none, 0⟩, false, none⟩ ∧
    (⟨"INDEX_FINGER", 0, 2, false, true, 1, false⟩ : Act).clip =
      AnimationNameConstants.INDEX_FINGER :=
  ⟨C9_name_gating.1 [] ⟨⟨0, 0, 0⟩, none, 0⟩ AnimationNameConstants.HEAD rfl rfl rfl rfl,
   C9_name_gating.1 [] ⟨⟨0, 0, 0⟩, none, 0⟩ AnimationNameConstants.SHOES rfl rfl rfl rfl,
   C9_name_gating.2.2 [⟨"INDEX_FINGER", 2⟩] ⟨⟨0, 0, 0⟩, none, 0⟩
     ⟨"INDEX_FINGER", 0, 2, false, true, 1, false⟩ rfl rfl⟩

/-- Number of clips currently playing (enabled and unpaused) in the scene
host's embedded playback state, which tracks the single current action. -/
def ModelDisplayer.playingCount (s : ModelDisplayer.MDState) : ℕ :=
  match s.currentAction with
  | none => 0
  | some a => if a.enabled && !a.paused then 1 else 0

/-- Number of clips currently playing (enabled and unpaused) in the pointer
proxy's embedded playback state. -/
def CursorObject.playingCount (s : CursorObject.CState) : ℕ :=
  match s.currentAction with
  | none => 0
  | some a => if a.enabled && !a.paused then 1 else 0

/-- The current clip, if any, is at its start or end boundary. -/
def ModelDisplayer.atBoundary (s : ModelDisplayer.MDState) : Prop :=
  ∀ a, s.currentAction = some a → a.time = 0 ∨ a.time = a.duration

/-- The current clip, if any, is at its start or end boundary. -/
def CursorObject.atBoundary (s : CursorObject.CState) : Prop :=
  ∀ a, s.currentAction = some a → a.time = 0 ∨ a.time = a.duration

theorem ModelDisplayer.playAnimation_started (clips : List Clip)
    (s : ModelDisplayer.MDState) (n : String)
    (h : (ModelDisplayer.playAnimation clips s n).started = true) :
    s.currentAction = none ∨ ∃ a, s.currentAction = some a ∧ a.time = 0 := by
  unfold ModelDisplayer.playAnimation at h
  cases hs : s.currentAction with
  | none => exact Or.inl rfl
  | some a =>
    right
    refine ⟨a, rfl, ?_⟩
    rw [hs] at h
    have h' : (if ModelDisplayer.isActionPlayable (some a) = true then
        (if (a.time == 0) = true then
          (match findByName clips n with
           | none => (⟨⟨none⟩, false, some "TypeError"⟩ : OpResult ModelDisplayer.MDState)
           | some c => ⟨⟨some ⟨c.name, 0, c.duration, false, true, 1, true⟩⟩, true, none⟩)
         else ⟨s, false, none⟩)
      else ⟨s, false, none⟩).started = true := h
    split_ifs at h' with h1 h2
    exact eq_of_beq h2

theorem ModelDisplayer.revert_started (s : ModelDisplayer.MDState)
    (h : (ModelDisplayer.revertToOriginalPosition s).started = true) :
    ∃ a, s.currentAction = some a ∧ a.paused = true ∧ a.time ≠ 0 := by
  unfold ModelDisplayer.revertToOriginalPosition at h
  by_cases h1 : ModelDisplayer.isActionPlayable s.currentAction = true
  · rw [if_pos h1] at h
    cases hs : s.currentAction with
    | none =>
      rw [hs] at h
      exact absurd h (by simp)
    | some a =>
      rw [hs] at h
      have h' : (if (a.time == 0) = true then
          (⟨s, false, none⟩ : OpResult ModelDisplayer.MDState)
        else ⟨⟨some { a with timeScale := -1, clampWhenFinished := false,
                             paused := false }⟩, true, none⟩).started = true := h
      have ht : (a.time == 0) = false := by
        by_contra hcon
        rw [Bool.not_eq_false] at hcon
        rw [if_pos hcon] at h'
        exact absurd h' (by simp)
      refine ⟨a, rfl, ?_, ?_⟩
      · unfold ModelDisplayer.isActionPlayable at h1
        rw [hs] at h1
        have h1' : (a.paused || (a.time == 0)) = true := h1
        rw [ht] at h1'
        simpa using h1'
      · intro hz
        rw [hz] at ht
        simp at ht
  · rw [if_neg h1] at h
    exact absurd h (by simp)

theorem CursorObject.playAnimation_started_boundary (clips : List Clip)
    (s : CursorObject.CState) (n : String)
    (h : (CursorObject.playAnimation clips s n).started = true) :
    s.currentAction = none ∨
      ∃ a, s.currentAction = some a ∧ a.time = s.currentClipDuration := by
  cases hs : s.currentAction with
  | none => exact Or.inl rfl
  | some a =>
    right
    refine ⟨a, rfl, ?_⟩
    unfold CursorObject.playAnimation at h
    by_cases h1 : (n == AnimationNameConstants.LA || n == AnimationNameConstants.SCROLL ||
        n == AnimationNameConstants.CLICK || n == AnimationNameConstants.TOUCH) = true
    · rw [if_pos h1] at h
      by_cases h2 : (CursorObject.isActionPlayableRun s).1 = true
      · unfold CursorObject.isActionPlayableRun at h2
        rw [hs] at h2
        have h2' : (if (a.time == s.currentClipDuration) = true then
            ((true, { s with currentAction := some a.reset }) :
              Bool × CursorObject.CState)
          else (false, s)).1 = true := h2
        by_cases ht : (a.time == s.currentClipDuration) = true
        · exact eq_of_beq ht
        · rw [if_neg ht] at h2'
          exact absurd h2' (by simp)
      · rw [if_neg h2] at h
        exact absurd h (by simp)
    · rw [if_neg h1] at h
      exact absurd h (by simp)

/-- C3: in every reachable playback state of either model at most one clip
is playing (unpaused), and every operation that starts a clip — playAnimation
on either component, revertToOriginalPosition on the scene host — does so
only when the previous clip is at its start or end boundary (time 0 or the
clip duration), never mid-clip. -/
theorem C3_single_clip_boundary (clips : List Clip)
    (hd : ∀ c ∈ clips, 0 ≤ c.duration) :
    (∀ s, ModelDisplayer.Reachable clips s →
      ModelDisplayer.playingCount s ≤ 1 ∧
      (∀ n, (ModelDisplayer.playAnimation clips s n).started = true →
        ModelDisplayer.atBoundary s) ∧
      ((ModelDisplayer.revertToOriginalPosition s).started = true →
        ModelDisplayer.atBoundary s)) ∧
    (∀ s, CursorObject.Reachable clips s →
      CursorObject.playingCount s ≤ 1 ∧
      (∀ n, (CursorObject.playAnimation clips s n).started = true →
        CursorObject.atBoundary s)) := by
  constructor
  · intro s hreach
    refine ⟨?_, ?_, ?_⟩
    · unfold ModelDisplayer.playingCount
      cases s.currentAction with
      | none => norm_num
      | some a =>
        show (if (a.enabled && !a.paused) = true then 1 else 0) ≤ 1
        split_ifs <;> norm_num
    · intro n h
      rcases ModelDisplayer.playAnimation_started clips s n h with hn | ⟨a, ha, ht⟩
      · intro b hb
        rw [hn] at hb
        cases hb
      · intro b hb
        rw [ha] at hb
        cases hb
        exact Or.inl ht
    · intro h
      obtain ⟨a, ha, hp, ht⟩ := ModelDisplayer.revert_started s h
      have hinv := ModelDisplayer.reachable_inv clips hd s hreach a ha
      intro b hb
      rw [ha] at hb
      cases hb
      exact Or.inr (hinv.2.2.1 hp)
  · intro s hreach
    refine ⟨?_, ?_⟩
    · unfold CursorObject.playingCount
      cases s.currentAction with
      | none => norm_num
      | some a =>
        show (if (a.enabled && !a.paused) = true then 1 else 0) ≤ 1
        split_ifs <;> norm_num
    · intro n h
      rcases CursorObject.playAnimation_started_boundary clips s n h with hn | ⟨a, ha, ht⟩
      · intro b hb
        rw [hn] at hb
        cases hb
      · intro b hb
        rw [ha] at hb
        cases hb
        have hinv := CursorObject.reachable_invariant clips hd s hreach a ha
        right
        rw [ht, hinv.2.2.1]

/-- C3 witness: the initial (post-load) states of both components are
reachable, and the invariant theorem applies to them with the one-clip
animation list. -/
theorem C3_witness :
    ModelDisplayer.playingCount ⟨none⟩ ≤ 1 ∧
    CursorObject.playingCount ⟨⟨0, 0, 0⟩, none, 0⟩ ≤ 1 :=
  ⟨((C3_single_clip_boundary [⟨"CLICK", 1⟩]
      (by intro c hc; fin_cases hc; norm_num)).1 ⟨none⟩
      ModelDisplayer.Reachable.init).1,
   ((C3_single_clip_boundary [⟨"CLICK", 1⟩]
      (by intro c hc; fin_cases hc; norm_num)).2 ⟨⟨0, 0, 0⟩, none, 0⟩
      (CursorObject.Reachable.init ⟨0, 0, 0⟩)).1⟩
